import Mathlib

/-!
Verification of the packaging manifest `setup.py` of the
`imx-starknet` repository.

The repository's only source file is a declarative `setuptools.setup`
call.  We embed it shallowly: the keyword arguments of the call become
the fields of a Lean structure, the module-level statements become a
small statement datatype, and the raw text of the file becomes a list
of its lines (single quotes written with the `\x27` escape).
-/

/-- The keyword arguments of the `setup(...)` call in `setup.py`. -/
structure SetupArgs where
  name : String
  version : String
  description : String
  url : String
  author : String
  license : String
  packages : List String
  include_package_data : Bool
  install_requires : List String
deriving DecidableEq

/-- The concrete argument values passed to `setup` in `src/setup.py`. -/
def setupArgs : SetupArgs :=
  ⟨"immutablex-starknet",
   "0.1.0",
   "Immutable X StarkNet Contracts",
   "",
   "Immutable",
   "Apache-2.0",
   ["immutablex"],
   true,
   ["openzeppelin-cairo-contracts", "cairolib"]⟩

/-- The identity fields of a package descriptor, in source order:
name, version, description, url, author, license. -/
def identityFields (a : SetupArgs) : List String :=
  [a.name, a.version, a.description, a.url, a.author, a.license]

/-- A top-level Python statement, at the granularity present in
`setup.py`: a `from ... import ...` statement, an expression statement
that calls a named function, a `def`, a `class`, or a control-flow
statement (`if` / `for` / `while` / `try` / `with`). -/
inductive PyStmt where
  | importFrom (module : String) (names : List String)
  | exprCall (fn : String)
  | defStmt (fnName : String)
  | classStmt (clsName : String)
  | controlFlow
deriving DecidableEq

/-- Whether a statement is an expression statement calling a function. -/
def PyStmt.isCall : PyStmt → Bool
  | .exprCall _ => true
  | _ => false

/-- Whether a statement is a `def` or `class` definition. -/
def PyStmt.isDefinition : PyStmt → Bool
  | .defStmt _ => true
  | .classStmt _ => true
  | _ => false

/-- Whether a statement is a control-flow statement. -/
def PyStmt.isControlFlow : PyStmt → Bool
  | .controlFlow => true
  | _ => false

/-- The top-level statements of `src/setup.py`: one import and one
call to `setup`. -/
def setupModule : List PyStmt :=
  [PyStmt.importFrom "setuptools" ["setup"],
   PyStmt.exprCall "setup"]

/-- The lines of text of `src/setup.py` (the final line carries no
trailing newline; `\x27` is the single-quote character). -/
def setupPyLines : List String :=
  ["from setuptools import setup",
   "",
   "setup(",
   "    name=\x27immutablex-starknet\x27,",
   "    version=\x270.1.0\x27,",
   "    description=\x27Immutable X StarkNet Contracts\x27,",
   "    url=\x27\x27,",
   "    author=\x27Immutable\x27,",
   "    license=\x27Apache-2.0\x27,",
   "    packages=[\x27immutablex\x27],",
   "    include_package_data=True,",
   "    install_requires=[",
   "        \x27openzeppelin-cairo-contracts\x27,",
   "        \x27cairolib\x27",
   "    ],",
   ")"]

/-- Whether a PEP 508 requirement string carries a version constraint,
extra, or environment marker: true iff it contains one of the
characters that begin a version specifier, bound, pin, extras list, or
marker (`=`, `<`, `>`, `!`, `~`, `;`, `[`, `(`, `*`, `@`, or a space).
A bare library identifier contains none of these. -/
def hasVersionConstraint (s : String) : Bool :=
  s.data.any (fun c =>
    c = '=' ∨ c = '<' ∨ c = '>' ∨ c = '!' ∨ c = '~' ∨
    c = ';' ∨ c = '[' ∨ c = '(' ∨ c = '*' ∨ c = '@' ∨ c = ' ')

/-- Claim C1: the descriptor declares exactly two dependencies in its
`install_requires` list, with the literal names
`openzeppelin-cairo-contracts` and `cairolib`. -/
theorem C1_install_requires_exactly_two :
    setupArgs.install_requires.length = 2 ∧
    setupArgs.install_requires = ["openzeppelin-cairo-contracts", "cairolib"] := by
  constructor <;> rfl

/-- Claim C2, counterexample: the claim that every identity field of
the descriptor is a non-empty string is false, because the `url` field
is the empty string. -/
theorem C2_cex_url_empty :
    ¬ (∀ s ∈ identityFields setupArgs, s ≠ "") := by
  intro h
  exact h "" (by decide) rfl

/-- Claim C2, amended: every identity field of the descriptor other
than `url` (name, version, description, author, license) is a
non-empty string, while `url` is the empty string. -/
theorem C2_identity_fields_nonempty_except_url :
    setupArgs.name ≠ "" ∧ setupArgs.version ≠ "" ∧
    setupArgs.description ≠ "" ∧ setupArgs.author ≠ "" ∧
    setupArgs.license ≠ "" ∧ setupArgs.url = "" := by
  decide

/-- Claim C3: the descriptor declares exactly one package namespace in
its `packages` list. -/
theorem C3_exactly_one_package :
    setupArgs.packages.length = 1 := by
  rfl

/-- Claim C4: the declared license string equals `Apache-2.0`. -/
theorem C4_license :
    setupArgs.license = "Apache-2.0" := by
  rfl

/-- Claim C5: the declared version string equals `0.1.0`. -/
theorem C5_version :
    setupArgs.version = "0.1.0" := by
  rfl

/-- Claim C6: every entry of the declared dependency list is a bare
library identifier carrying no version specifier, bound, or pin. -/
theorem C6_no_version_constraints :
    setupArgs.install_requires.all
      (fun s => !(hasVersionConstraint s)) = true := by
  decide

/-- Claim C7: the entire visible source is a single declarative
manifest of exactly 16 lines whose statements comprise exactly one
function call (the `setup` call) and no definitions or control flow. -/
theorem C7_single_manifest_16_lines :
    setupPyLines.length = 16 ∧
    (setupModule.filter PyStmt.isCall) = [PyStmt.exprCall "setup"] ∧
    (setupModule.filter PyStmt.isDefinition) = [] ∧
    (setupModule.filter PyStmt.isControlFlow) = [] := by
  refine ⟨rfl, ?_, rfl, rfl⟩
  rfl

/-- Claim C8: neither the declared package list nor the declared
dependency list contains a duplicate entry. -/
theorem C8_lists_are_sets :
    setupArgs.packages.Nodup ∧ setupArgs.install_requires.Nodup := by
  constructor <;> decide

/-- Claim C9: the descriptor sets `include_package_data` to `True`. -/
theorem C9_include_package_data :
    setupArgs.include_package_data = true := by
  rfl

/-- Claim C10: the identity fields not given literal values by the
spec have exactly these values: `name` is `immutablex-starknet`,
`description` is `Immutable X StarkNet Contracts`, `author` is
`Immutable`, and `url` is the empty string. -/
theorem C10_remaining_identity_fields :
    setupArgs.name = "immutablex-starknet" ∧
    setupArgs.description = "Immutable X StarkNet Contracts" ∧
    setupArgs.author = "Immutable" ∧
    setupArgs.url = "" := by
  refine ⟨rfl, rfl, rfl, rfl⟩
